import Mathlib

/-!
Verification of the report-block generation engine in
`ReportRunner/prompt_suite.py`: task-catalog construction
(`build_all_generation_tasks`), bounded-concurrency execution
(`generate_block` / `generate_all_blocks`) and result aggregation
(`organize_results`), shallowly embedded in Lean.

Python strings are modelled by `String`, Python lists by `List`, and the
module-level dictionaries (which iterate in insertion order) by
insertion-ordered association lists.  All definitions are translated from
the source; doc comments note the line ranges they come from.
-/

namespace PromptSuite

/-! ## String helpers (Python `str.lower`, `str.replace`, slicing) -/

/-- The space character, `chr 32`. -/
def spaceChar : Char := Char.ofNat 32

/-- Python `str.lower()` restricted to the ASCII strings appearing in the
static tables (`Char.toLower` lowercases exactly the ASCII uppercase
letters, as `str.lower` does on ASCII input). -/
def lowerStr (s : String) : String := String.mk (s.data.map Char.toLower)

/-- Python `s.replace(a, b)` where `a` and `b` are single characters. -/
def replaceChar (s : String) (a b : Char) : String :=
  String.mk (s.data.map (fun c => if c = a then b else c))

/-- Python `s.replace("&", "and")`. -/
def replaceAmpAnd (s : String) : String :=
  String.mk (s.data.flatMap (fun c => if c = '&' then "and".data else [c]))

/-- Python slicing `s[:n]` (by characters, as on these ASCII strings). -/
def takeStr (s : String) (n : Nat) : String := String.mk (s.data.take n)

/-- Python `s.startswith(pre)`. -/
def startsWithPy (s pre : String) : Bool := pre.data.isPrefixOf s.data

/-! ## Data model -/

/-- A value stored in a task's `params` dictionary: the source stores
strings and small integers (`variation`, `discount`, `cap`). -/
inductive PValue where
  | s (v : String)
  | n (v : Nat)
deriving DecidableEq, Repr

/-- One generation task, as built by `build_all_generation_tasks`
(source lines 1387-1541): a dict with keys `block_type`, `params`,
`output_key`. -/
structure Task where
  block_type : String
  params : List (String × PValue)
  output_key : String
deriving DecidableEq, Repr

/-- Row of the `INDUSTRIES` table (source lines 1053-1138). -/
structure Industry where
  name : String
  factors : String
deriving DecidableEq, Repr

/-- Row of the `SOLUTIONS` table (source lines 1140-1195). -/
structure Solution where
  name : String
  roi_timeline : String
  primary_impacts : String
  sources : String
deriving DecidableEq, Repr

/-- Row of the `CATEGORIES` table (source lines 1197-1233). -/
structure Category where
  name : String
  benchmark_range : String
  cost_components : String
deriving DecidableEq, Repr

/-- Row of the `RISK_TOLERANCES` table (source lines 1267-1271). -/
structure RiskTolerance where
  name : String
  discount : Nat
  cap : Nat
deriving DecidableEq, Repr

/-- One cell of `IMPACT_MATRIX` (source lines 1281-1363): the dict
`{"type": …, "cons": …, "mod": …, "agg": …}`. -/
structure ImpactCell where
  type : String
  cons : String
  mod : String
  agg : String
deriving DecidableEq, Repr

/-! ## Static configuration tables (source lines 1053-1363)

The long free-text fields (`factors`, `sources`, `cost_components`,
synergy descriptions) are carried verbatim: they flow into task `params`
unchanged and nothing else inspects them. -/

/-- `INDUSTRIES` (source lines 1053-1138). -/
def INDUSTRIES : List Industry := [
  { name := "Food & Beverage",
    factors := "
- Inventory turnover: 8-15x per year (highest of all sectors)
- Spoilage/obsolescence: +30-50% above baseline risk
- Forecasting ROI: +20-30% above baseline due to perishability
- Key challenge: Balancing freshness with availability
- Example companies: Sunsweet (30% spoilage reduction), Walmart ($86M food waste savings)
- Temperature-controlled logistics adds complexity
- Promotional volatility higher than other sectors
" },
  { name := "Industrial Distribution",
    factors := "
- Inventory turnover: 2-4x per year (slowest, highest value per SKU)
- Demand patterns: Stable, predictable, project-driven
- Lead times: Often 4-12 weeks from international suppliers
- Forecast benefits: -10-15% vs baseline (stable demand means less forecast value)
- Supplier optimization: +20-25% above baseline (long lead times = bigger impact)
- Carrying costs: 25-35% of inventory value (higher due to capital intensity)
- Example: Sparex ($5M savings through supplier visibility)
" },
  { name := "Retail/E-commerce",
    factors := "
- Fulfillment speed: Sub-24 hour expectations
- Returns rate: 16.5-17.9% (online), highest of all sectors
- Warehouse optimization: +25-35% ROI above baseline
- Obsolescence risk: +20-30% for fashion/seasonal segments
- Order complexity: Multi-channel, split shipments, click-and-collect
- Peak seasonality: 30-40% of volume in Q4
- Real-time visibility critical for available-to-promise
" },
  { name := "Pharmaceutical",
    factors := "
- Service level requirements: >98% (regulatory mandated)
- Serialization/track-trace: Required for compliance
- Automation benefits: -10-20% vs baseline (regulatory constraints limit flexibility)
- Cold chain: Adds 15-25% to logistics costs
- Shelf life management: Critical for compliance
- Logistics costs: ~2% of sales, 7-8% of COGS (lower due to outsourcing)
- Risk/compliance: Higher weighting than other sectors
" },
  { name := "Technology/Electronics",
    factors := "
- Product lifecycle: 12-18 months (rapid obsolescence)
- Obsolescence risk: HIGHEST priority — 1pp over-forecast = $1.58M loss
- Forecast accuracy: >95% target (critical for component planning)
- Example: Lenovo (20% surplus inventory reduction, 25% forecast accuracy gain)
- Component lead times: Highly variable (chip shortages)
- Reverse logistics: Growing importance (sustainability, refurbishment)
- New product introduction: Frequent, high-stakes inventory positioning
" },
  { name := "Fashion/Apparel",
    factors := "
- Product lifecycle: 6-12 weeks (fastest turns)
- Obsolescence rate: 20-30% of inventory without controls
- Markdown strategy: Critical — typical 10%/20%/50% at 30/60/90 days
- Key solutions: Obsolescence control, demand forecasting, SKU rationalization
- Size/color proliferation: Compounds inventory complexity
- Seasonality: Extreme (2-4 major seasons)
- Return rates: 15-20% for online
" },
  { name := "CPG",
    factors := "
- Baseline/reference industry for model calibration
- Standard multipliers apply
- Promotional lift: 3-5x baseline during promotions
- Trade spend optimization: Adjacent opportunity
- Demand sensing: Real-time POS data increasingly available
- Retailer collaboration: VMI/CPFR programs common
- Example: P&G ($1B savings through SKU rationalization)
" }
]

/-- `SOLUTIONS` (source lines 1140-1195). -/
def SOLUTIONS : List Solution := [
  { name := "Demand Forecasting AI",
    roi_timeline := "12-18 months",
    primary_impacts := "Returns/Obsolescence, Inventory Carrying",
    sources := "McKinsey (50% error reduction), Sunsweet (30% spoilage reduction), Lenovo (25% accuracy improvement), IBM AI studies" },
  { name := "Inventory Planning & Replenishment",
    roi_timeline := "12-18 months",
    primary_impacts := "Returns/Obsolescence, Inventory Carrying, Order Processing",
    sources := "McKinsey Supply Chain 4.0 (-35% inventory), IDC (25% reduction in one year), Bain distribution studies" },
  { name := "Supplier Lead Time & Reliability",
    roi_timeline := "12-18 months",
    primary_impacts := "Warehousing, Inventory Carrying, Risk/Compliance",
    sources := "Sparex ($5M savings, 20% transportation reduction), Gartner (20% logistics reduction), KPMG supplier studies" },
  { name := "SKU Rationalization Analytics",
    roi_timeline := "90 days - 18 months",
    primary_impacts := "Returns/Obsolescence, Inventory Carrying, Warehousing",
    sources := "P&G ($1B savings), Mattel ($797M over 2 years), Distributor case study (bottom 36% SKUs = 3% sales)" },
  { name := "Warehouse Layout & Slotting",
    roi_timeline := "4-6 weeks",
    primary_impacts := "Warehousing, Order Processing",
    sources := "Plant Therapy (300% productivity), GEODIS (15-60% efficiency), enVista (5-15% pick improvement), FORTNA" },
  { name := "Cycle Counting & Inventory Accuracy",
    roi_timeline := "2-3 months",
    primary_impacts := "Warehousing, Order Processing, Returns/Obsolescence",
    sources := "Vimaan (75% labor reduction, 100% accuracy), Auburn RFID Lab (70%→95% accuracy), WERC benchmarks" },
  { name := "Order Pattern Optimization",
    roi_timeline := "6-12 months",
    primary_impacts := "Order Processing, Warehousing, Sales/Marketing",
    sources := "Gartner (40% manual reduction), KIBO (30% CS cost reduction), Komar case (8 hours → 8 minutes)" },
  { name := "Inventory Visibility & Real-Time Data",
    roi_timeline := "12-18 months",
    primary_impacts := "Order Processing, Warehousing, Risk/Compliance",
    sources := "McKinsey (35% stockout reduction), 93% cost savings survey, RFID/IoT research" },
  { name := "Obsolescence & Aging Control",
    roi_timeline := "6-12 months",
    primary_impacts := "Returns/Obsolescence, Inventory Carrying",
    sources := "Race Winning Brands (€3.5M excess eliminated), Avery Dennison (8% perish rate → <3% target)" }
]

/-- `CATEGORIES` (source lines 1197-1233). -/
def CATEGORIES : List Category := [
  { name := "Inventory Carrying Cost",
    benchmark_range := "2.5-4% of revenue",
    cost_components := "Cost of capital, storage costs, insurance, shrinkage, obsolescence risk, handling" },
  { name := "Warehousing & Logistics",
    benchmark_range := "5-10% of revenue",
    cost_components := "Facility costs, labor (picking/packing/shipping), equipment, transportation, 3PL fees" },
  { name := "Sales/Marketing/Customer Service",
    benchmark_range := "6-12% of revenue",
    cost_components := "Customer acquisition, retention programs, service center operations, returns processing" },
  { name := "Order Processing & Back-Office",
    benchmark_range := "3-6% of revenue",
    cost_components := "Order entry, invoicing, exception handling, EDI/integration, customer communication" },
  { name := "Returns/Obsolescence/Shrinkage",
    benchmark_range := "1-4% of revenue",
    cost_components := "Returned goods processing, markdown losses, write-offs, disposal, shrinkage/theft" },
  { name := "IT Costs (Supply Chain)",
    benchmark_range := "1.5-4% of revenue",
    cost_components := "ERP/WMS licenses, integration costs, maintenance, development, cloud infrastructure" },
  { name := "Risk & Compliance",
    benchmark_range := "0.5-2% of revenue",
    cost_components := "Audit costs, regulatory compliance, insurance, quality control, traceability systems" }
]

/-- `SYNERGY_PAIRS` (source lines 1235-1265): tuples
`(solution_a, solution_b, interaction_type, description)`. -/
def SYNERGY_PAIRS : List (String × String × String × String) := [
  ("Demand Forecasting AI", "Inventory Planning & Replenishment", "amplifying",
   "Forecasting provides the demand signal that Planning uses to optimize. Better forecasts → more aggressive inventory policies without service risk."),
  ("Warehouse Layout & Slotting", "Cycle Counting & Inventory Accuracy", "amplifying",
   "Accurate inventory data enables optimal slotting. Slotting improvements increase count efficiency. Virtuous cycle."),
  ("SKU Rationalization Analytics", "Obsolescence & Aging Control", "overlapping",
   "Both target inventory quality. Rationalization prevents future obsolescence; Aging Control manages current exposure. Some benefit overlap."),
  ("Inventory Visibility & Real-Time Data", "Order Pattern Optimization", "sequential",
   "Visibility provides the data foundation. Order optimization uses that data to improve fulfillment. Must sequence correctly."),
  ("Demand Forecasting AI", "Obsolescence & Aging Control", "sequential",
   "Forecasting prevents over-ordering. Aging Control manages existing excess. Together they address both prevention and cure."),
  ("Inventory Planning & Replenishment", "Supplier Lead Time & Reliability", "amplifying",
   "Better supplier data enables tighter planning parameters. Reliable suppliers allow lower safety stock. Multiplicative effect."),
  ("Warehouse Layout & Slotting", "Order Pattern Optimization", "amplifying",
   "Slotting optimizes physical layout. Order optimization improves logical fulfillment. Together they maximize throughput."),
  ("Cycle Counting & Inventory Accuracy", "Inventory Visibility & Real-Time Data", "sequential",
   "Counting establishes accuracy baseline. Visibility maintains it in real-time. Foundation then scale."),
  ("SKU Rationalization Analytics", "Demand Forecasting AI", "amplifying",
   "Fewer SKUs = easier to forecast. Better forecasts inform rationalization decisions. Reinforcing loop."),
  ("Supplier Lead Time & Reliability", "Inventory Visibility & Real-Time Data", "amplifying",
   "Supplier visibility enables proactive exception management. Reliability data improves planning parameters.")
]

/-- `RISK_TOLERANCES` (source lines 1267-1271). -/
def RISK_TOLERANCES : List RiskTolerance := [
  { name := "Conservative", discount := 70, cap := 20 },
  { name := "Moderate", discount := 80, cap := 40 },
  { name := "Aggressive", discount := 85, cap := 60 }
]

/-- `COMPLEXITY_LEVELS` (source line 1273). -/
def COMPLEXITY_LEVELS : List String := ["Low", "Medium", "High"]

/-- `IMPACT_MATRIX` (source lines 1281-1363): an insertion-ordered
association list `solution → (category → cell)`, modelling the nested
Python dicts (dict iteration follows insertion order). -/
def IMPACT_MATRIX : List (String × List (String × ImpactCell)) := [
  ("Demand Forecasting AI", [
    ("Inventory Carrying Cost", { type := "TERTIARY", cons := "-3% to -5%", mod := "-5% to -8%", agg := "-10% to -15%" }),
    ("Warehousing & Logistics", { type := "TERTIARY", cons := "-2% to -3%", mod := "-3% to -5%", agg := "-5% to -8%" }),
    ("Sales/Marketing/Customer Service", { type := "TERTIARY", cons := "+1% to +2%", mod := "+2% to +3%", agg := "+3% to +5%" }),
    ("Order Processing & Back-Office", { type := "TERTIARY", cons := "-2% to -3%", mod := "-3% to -5%", agg := "-5% to -7%" }),
    ("Returns/Obsolescence/Shrinkage", { type := "SECONDARY", cons := "-5% to -8%", mod := "-10% to -15%", agg := "-15% to -25%" }),
    ("IT Costs (Supply Chain)", { type := "MINIMAL", cons := "0%", mod := "0%", agg := "0%" }),
    ("Risk & Compliance", { type := "TERTIARY", cons := "-2% to -3%", mod := "-3% to -5%", agg := "-5% to -8%" })]),
  ("Inventory Planning & Replenishment", [
    ("Inventory Carrying Cost", { type := "SECONDARY", cons := "-5% to -10%", mod := "-10% to -20%", agg := "-20% to -35%" }),
    ("Warehousing & Logistics", { type := "TERTIARY", cons := "-3% to -5%", mod := "-5% to -10%", agg := "-10% to -15%" }),
    ("Sales/Marketing/Customer Service", { type := "TERTIARY", cons := "0% to +2%", mod := "+2% to +5%", agg := "+5% to +10%" }),
    ("Order Processing & Back-Office", { type := "SECONDARY", cons := "-5% to -8%", mod := "-8% to -12%", agg := "-12% to -20%" }),
    ("Returns/Obsolescence/Shrinkage", { type := "PRIMARY", cons := "-10% to -15%", mod := "-15% to -25%", agg := "-25% to -40%" }),
    ("IT Costs (Supply Chain)", { type := "MINIMAL", cons := "0%", mod := "0%", agg := "0%" }),
    ("Risk & Compliance", { type := "TERTIARY", cons := "-3% to -5%", mod := "-5% to -8%", agg := "-8% to -12%" })]),
  ("Supplier Lead Time & Reliability", [
    ("Inventory Carrying Cost", { type := "SECONDARY", cons := "-8% to -12%", mod := "-12% to -18%", agg := "-18% to -25%" }),
    ("Warehousing & Logistics", { type := "SECONDARY", cons := "-10% to -15%", mod := "-15% to -20%", agg := "-20% to -25%" }),
    ("Sales/Marketing/Customer Service", { type := "TERTIARY", cons := "+5% to +8%", mod := "+8% to +12%", agg := "+12% to +15%" }),
    ("Order Processing & Back-Office", { type := "TERTIARY", cons := "-3% to -5%", mod := "-5% to -8%", agg := "-8% to -12%" }),
    ("Returns/Obsolescence/Shrinkage", { type := "TERTIARY", cons := "-3% to -5%", mod := "-5% to -8%", agg := "-8% to -12%" }),
    ("IT Costs (Supply Chain)", { type := "MINIMAL", cons := "0%", mod := "0%", agg := "0%" }),
    ("Risk & Compliance", { type := "TERTIARY", cons := "-5% to -8%", mod := "-8% to -12%", agg := "-12% to -18%" })]),
  ("SKU Rationalization Analytics", [
    ("Inventory Carrying Cost", { type := "PRIMARY", cons := "-10% to -15%", mod := "-15% to -25%", agg := "-25% to -40%" }),
    ("Warehousing & Logistics", { type := "SECONDARY", cons := "-8% to -12%", mod := "-12% to -18%", agg := "-18% to -25%" }),
    ("Sales/Marketing/Customer Service", { type := "TERTIARY", cons := "-5% to -8%", mod := "-3% to -5%", agg := "0%" }),
    ("Order Processing & Back-Office", { type := "SECONDARY", cons := "-5% to -10%", mod := "-10% to -15%", agg := "-15% to -20%" }),
    ("Returns/Obsolescence/Shrinkage", { type := "PRIMARY", cons := "-15% to -20%", mod := "-20% to -30%", agg := "-30% to -50%" }),
    ("IT Costs (Supply Chain)", { type := "TERTIARY", cons := "-5% to -8%", mod := "-8% to -12%", agg := "-12% to -18%" }),
    ("Risk & Compliance", { type := "TERTIARY", cons := "-3% to -5%", mod := "-5% to -8%", agg := "-8% to -12%" })]),
  ("Warehouse Layout & Slotting", [
    ("Inventory Carrying Cost", { type := "TERTIARY", cons := "-2% to -4%", mod := "-4% to -8%", agg := "-8% to -12%" }),
    ("Warehousing & Logistics", { type := "PRIMARY", cons := "-5% to -10%", mod := "-10% to -20%", agg := "-20% to -50%" }),
    ("Sales/Marketing/Customer Service", { type := "TERTIARY", cons := "+1% to +2%", mod := "+2% to +3%", agg := "+3% to +5%" }),
    ("Order Processing & Back-Office", { type := "SECONDARY", cons := "-3% to -5%", mod := "-5% to -10%", agg := "-10% to -20%" }),
    ("Returns/Obsolescence/Shrinkage", { type := "TERTIARY", cons := "-3% to -5%", mod := "-5% to -8%", agg := "-8% to -12%" }),
    ("IT Costs (Supply Chain)", { type := "MINIMAL", cons := "0%", mod := "0%", agg := "0%" }),
    ("Risk & Compliance", { type := "TERTIARY", cons := "-2% to -3%", mod := "-3% to -5%", agg := "-5% to -8%" })]),
  ("Cycle Counting & Inventory Accuracy", [
    ("Inventory Carrying Cost", { type := "TERTIARY", cons := "-3% to -5%", mod := "-5% to -10%", agg := "-10% to -15%" }),
    ("Warehousing & Logistics", { type := "PRIMARY", cons := "-20% to -30%", mod := "-40% to -60%", agg := "-70% to -75%" }),
    ("Sales/Marketing/Customer Service", { type := "TERTIARY", cons := "+1% to +2%", mod := "+2% to +4%", agg := "+4% to +6%" }),
    ("Order Processing & Back-Office", { type := "SECONDARY", cons := "-5% to -8%", mod := "-8% to -12%", agg := "-12% to -20%" }),
    ("Returns/Obsolescence/Shrinkage", { type := "SECONDARY", cons := "-5% to -8%", mod := "-8% to -15%", agg := "-15% to -25%" }),
    ("IT Costs (Supply Chain)", { type := "MINIMAL", cons := "0%", mod := "0%", agg := "0%" }),
    ("Risk & Compliance", { type := "TERTIARY", cons := "-3% to -5%", mod := "-5% to -10%", agg := "-10% to -15%" })]),
  ("Order Pattern Optimization", [
    ("Inventory Carrying Cost", { type := "SECONDARY", cons := "-5% to -10%", mod := "-10% to -15%", agg := "-15% to -20%" }),
    ("Warehousing & Logistics", { type := "SECONDARY", cons := "-10% to -15%", mod := "-15% to -25%", agg := "-25% to -35%" }),
    ("Sales/Marketing/Customer Service", { type := "SECONDARY", cons := "+10% to +15%", mod := "+15% to +25%", agg := "+25% to +35%" }),
    ("Order Processing & Back-Office", { type := "PRIMARY", cons := "-15% to -25%", mod := "-25% to -40%", agg := "-40% to -60%" }),
    ("Returns/Obsolescence/Shrinkage", { type := "TERTIARY", cons := "-5% to -8%", mod := "-8% to -12%", agg := "-12% to -18%" }),
    ("IT Costs (Supply Chain)", { type := "MINIMAL", cons := "0%", mod := "0%", agg := "0%" }),
    ("Risk & Compliance", { type := "TERTIARY", cons := "-2% to -4%", mod := "-4% to -6%", agg := "-6% to -10%" })]),
  ("Inventory Visibility & Real-Time Data", [
    ("Inventory Carrying Cost", { type := "SECONDARY", cons := "-8% to -12%", mod := "-12% to -18%", agg := "-18% to -25%" }),
    ("Warehousing & Logistics", { type := "SECONDARY", cons := "-10% to -15%", mod := "-15% to -20%", agg := "-20% to -25%" }),
    ("Sales/Marketing/Customer Service", { type := "TERTIARY", cons := "+5% to +8%", mod := "+8% to +12%", agg := "+12% to +15%" }),
    ("Order Processing & Back-Office", { type := "PRIMARY", cons := "-15% to -20%", mod := "-20% to -30%", agg := "-30% to -40%" }),
    ("Returns/Obsolescence/Shrinkage", { type := "SECONDARY", cons := "-5% to -8%", mod := "-8% to -15%", agg := "-15% to -25%" }),
    ("IT Costs (Supply Chain)", { type := "MINIMAL", cons := "0%", mod := "0%", agg := "0%" }),
    ("Risk & Compliance", { type := "TERTIARY", cons := "-3% to -5%", mod := "-5% to -10%", agg := "-10% to -15%" })]),
  ("Obsolescence & Aging Control", [
    ("Inventory Carrying Cost", { type := "SECONDARY", cons := "-5% to -8%", mod := "-8% to -12%", agg := "-12% to -20%" }),
    ("Warehousing & Logistics", { type := "TERTIARY", cons := "-3% to -5%", mod := "-5% to -8%", agg := "-8% to -12%" }),
    ("Sales/Marketing/Customer Service", { type := "TERTIARY", cons := "0%", mod := "0% to +2%", agg := "+2% to +5%" }),
    ("Order Processing & Back-Office", { type := "TERTIARY", cons := "-2% to -3%", mod := "-3% to -5%", agg := "-5% to -8%" }),
    ("Returns/Obsolescence/Shrinkage", { type := "PRIMARY", cons := "-20% to -30%", mod := "-30% to -50%", agg := "-50% to -70%" }),
    ("IT Costs (Supply Chain)", { type := "MINIMAL", cons := "0%", mod := "0%", agg := "0%" }),
    ("Risk & Compliance", { type := "TERTIARY", cons := "-2% to -4%", mod := "-4% to -8%", agg := "-8% to -12%" })])
]

/-! ## Task-catalog construction (source lines 1370-1541)

`build_all_generation_tasks` reads the module-level tables; to state
properties that quantify over the tables ("for every impact matrix",
"over identical configuration tables") the construction is parameterised
by a `Config` record holding exactly those tables, and `DEFAULT_CONFIG`
instantiates it with the source's values.  Each `for`-loop that appends
into `tasks` is translated as a per-family list, and the sequential
appends as list concatenation in the same order. -/

/-- The configuration tables `build_all_generation_tasks` reads. -/
structure Config where
  industries : List Industry
  solutions : List Solution
  categories : List Category
  synergy_pairs : List (String × String × String × String)
  risk_tolerances : List RiskTolerance
  complexity_levels : List String
  impact_matrix : List (String × List (String × ImpactCell))

/-- The source's module-level tables, as one record. -/
def DEFAULT_CONFIG : Config :=
  { industries := INDUSTRIES, solutions := SOLUTIONS, categories := CATEGORIES,
    synergy_pairs := SYNERGY_PAIRS, risk_tolerances := RISK_TOLERANCES,
    complexity_levels := COMPLEXITY_LEVELS, impact_matrix := IMPACT_MATRIX }

/-- One element of the list returned by `get_impact_blocks_to_generate`
(source lines 1370-1384). -/
structure ImpactBlock where
  solution : String
  category : String
  impact_type : String
  conservative_range : String
  moderate_range : String
  aggressive_range : String
deriving DecidableEq, Repr

/-- `get_impact_blocks_to_generate` (source lines 1370-1384): traverse
the impact matrix in insertion order and keep every cell whose `type` is
not `"MINIMAL"`. -/
def get_impact_blocks_to_generate (matrix : List (String × List (String × ImpactCell))) :
    List ImpactBlock :=
  matrix.flatMap (fun sc =>
    (sc.2.filter (fun cc => cc.2.type ≠ "MINIMAL")).map (fun cc =>
      { solution := sc.1, category := cc.1, impact_type := cc.2.type,
        conservative_range := cc.2.cons, moderate_range := cc.2.mod,
        aggressive_range := cc.2.agg }))

/-- Executive-summary loop (source lines 1391-1398):
4 variations × each risk tolerance. -/
def executive_summary_tasks (risks : List RiskTolerance) : List Task :=
  risks.flatMap (fun risk =>
    [1, 2, 3, 4].map (fun var =>
      { block_type := "executive_summary",
        params := [("risk_tolerance", .s risk.name), ("variation", .n var)],
        output_key := "executive_summary_" ++ lowerStr risk.name ++ "_v" ++ toString var }))

/-- Industry-narrative loop (source lines 1400-1411):
3 variations × each industry. -/
def industry_narrative_tasks (industries : List Industry) : List Task :=
  industries.flatMap (fun industry =>
    [1, 2, 3].map (fun var =>
      { block_type := "industry_narrative",
        params := [("industry", .s industry.name), ("variation", .n var),
                   ("industry_factors", .s industry.factors)],
        output_key := "industry_" ++
          replaceChar (replaceChar (lowerStr industry.name) '/' '_') spaceChar '_' ++
          "_v" ++ toString var }))

/-- The `impact_matrix` string rendered into a solution-description's
params (source lines 1416-1420): one line per category of the solution's
row, joined by newlines. -/
def impact_matrix_str (impact_data : List (String × ImpactCell)) : String :=
  String.intercalate "\n" (impact_data.map (fun cc =>
    "- " ++ cc.1 ++ ": " ++ cc.2.type ++ " impact, " ++ cc.2.mod ++ " (moderate)"))

/-- Solution-description loop (source lines 1413-1431): one task per
solution; `IMPACT_MATRIX.get(name, {})` is the association-list lookup
defaulting to the empty row. -/
def solution_description_tasks (solutions : List Solution)
    (matrix : List (String × List (String × ImpactCell))) : List Task :=
  solutions.map (fun solution =>
    { block_type := "solution_description",
      params := [("solution_name", .s solution.name),
                 ("roi_timeline", .s solution.roi_timeline),
                 ("primary_impacts", .s solution.primary_impacts),
                 ("sources", .s solution.sources),
                 ("impact_matrix", .s (impact_matrix_str ((matrix.lookup solution.name).getD [])))],
      output_key := "solution_" ++
        replaceAmpAnd (replaceChar (lowerStr solution.name) spaceChar '_') })

/-- Category-anchor loop (source lines 1433-1445):
2 variations × each category. -/
def category_anchor_tasks (categories : List Category) : List Task :=
  categories.flatMap (fun category =>
    [1, 2].map (fun var =>
      { block_type := "category_anchor",
        params := [("category", .s category.name), ("variation", .n var),
                   ("benchmark_range", .s category.benchmark_range),
                   ("cost_components", .s category.cost_components)],
        output_key := "category_" ++
          replaceChar (replaceChar (lowerStr category.name) '/' '_') spaceChar '_' ++
          "_v" ++ toString var }))

/-- Impact-explanation loop (source lines 1447-1464): one task per
non-MINIMAL cell; `block_type` is `"impact_" + impact_type.lower()`;
`sources` comes from the first solution whose name matches (`next(...)`
with default `{}`, then `.get("sources", "")`).  The dict built by
`get_impact_blocks_to_generate` always carries `"aggressive_range"`, so
`block.get("aggressive_range", block["moderate_range"])` is that value. -/
def impact_explanation_tasks (matrix : List (String × List (String × ImpactCell)))
    (solutions : List Solution) : List Task :=
  (get_impact_blocks_to_generate matrix).map (fun block =>
    { block_type := "impact_" ++ lowerStr block.impact_type,
      params := [("solution", .s block.solution), ("category", .s block.category),
                 ("conservative_range", .s block.conservative_range),
                 ("moderate_range", .s block.moderate_range),
                 ("aggressive_range", .s block.aggressive_range),
                 ("typical_range", .s block.moderate_range),
                 ("sources", .s (((solutions.find? (fun s => s.name == block.solution)).map
                     Solution.sources).getD ""))],
      output_key := "impact_" ++
        replaceChar (lowerStr block.solution) spaceChar '_' ++ "_" ++
        replaceChar (replaceChar (lowerStr block.category) '/' '_') spaceChar '_' })

/-- Synergy loop (source lines 1466-1477): key parts truncated to 15
characters. -/
def synergy_tasks (pairs : List (String × String × String × String)) : List Task :=
  pairs.map (fun p =>
    { block_type := "synergy",
      params := [("solution_a", .s p.1), ("solution_b", .s p.2.1),
                 ("interaction_type", .s p.2.2.1),
                 ("affected_categories", .s p.2.2.2)],
      output_key := "synergy_" ++
        takeStr (replaceChar (lowerStr p.1) spaceChar '_') 15 ++ "_" ++
        takeStr (replaceChar (lowerStr p.2.1) spaceChar '_') 15 })

/-- Methodology loop (source lines 1479-1489): one per risk tolerance. -/
def methodology_tasks (risks : List RiskTolerance) : List Task :=
  risks.map (fun risk =>
    { block_type := "methodology",
      params := [("risk_tolerance", .s risk.name), ("discount", .n risk.discount),
                 ("cap", .n risk.cap)],
      output_key := "methodology_" ++ lowerStr risk.name })

/-- Implementation-roadmap loop (source lines 1491-1497): one per
complexity level. -/
def implementation_roadmap_tasks (levels : List String) : List Task :=
  levels.map (fun complexity =>
    { block_type := "implementation_roadmap",
      params := [("complexity", .s complexity)],
      output_key := "roadmap_" ++ lowerStr complexity })

/-- The fixed `single_blocks` list (source lines 1499-1514), local to
`build_all_generation_tasks`: seven parameterless one-off blocks. -/
def single_block_tasks : List Task :=
  [("why_now", "why_now"), ("diy_vs_partner", "diy_vs_partner"),
   ("readiness_assessment", "readiness_assessment"),
   ("report_limitations", "report_limitations"),
   ("risk_factors", "risk_factors"), ("next_steps", "next_steps"),
   ("partner_acknowledgment", "partner_acknowledgment")].map (fun p =>
    { block_type := p.1, params := [], output_key := p.2 })

/-- The fixed `common_combos` list (source lines 1516-1529), local to
`build_all_generation_tasks`: tuples `(solution_combo, industry,
company_size)`. -/
def common_combos : List (String × String × String) := [
  ("Demand Forecasting AI + Inventory Planning", "Industrial Distribution", "Mid-Market"),
  ("SKU Rationalization Analytics", "Retail/E-commerce", "Small"),
  ("Warehouse Layout & Slotting + Cycle Counting", "Industrial Distribution", "Mid-Market"),
  ("Demand Forecasting AI + Obsolescence & Aging Control", "Food & Beverage", "Mid-Market"),
  ("Full Suite (all 9)", "Enterprise", "Enterprise"),
  ("Inventory Visibility + Order Pattern Optimization", "Retail/E-commerce", "Mid-Market"),
  ("SKU Rationalization + Demand Forecasting", "CPG", "Enterprise"),
  ("Supplier Lead Time + Inventory Planning", "Industrial Distribution", "Enterprise"),
  ("Cycle Counting + Inventory Visibility", "Pharmaceutical", "Mid-Market"),
  ("Warehouse Slotting only", "Industrial Distribution", "Small")
]

/-- Sales-enablement loop (source lines 1530-1539): one task per curated
combo, key truncated to 30 characters. -/
def sales_enablement_tasks : List Task :=
  common_combos.map (fun c =>
    { block_type := "sales_enablement",
      params := [("solution_combo", .s c.1), ("industry", .s c.2.1),
                 ("company_size", .s c.2.2)],
      output_key := "sales_enablement_" ++
        takeStr (replaceChar (replaceChar (lowerStr c.1) spaceChar '_') '+' '_') 30 })

/-- `build_all_generation_tasks` (source lines 1387-1541): the ten
families appended in source order. -/
def build_all_generation_tasks (cfg : Config) : List Task :=
  executive_summary_tasks cfg.risk_tolerances ++
  industry_narrative_tasks cfg.industries ++
  solution_description_tasks cfg.solutions cfg.impact_matrix ++
  category_anchor_tasks cfg.categories ++
  impact_explanation_tasks cfg.impact_matrix cfg.solutions ++
  synergy_tasks cfg.synergy_pairs ++
  methodology_tasks cfg.risk_tolerances ++
  implementation_roadmap_tasks cfg.complexity_levels ++
  single_block_tasks ++
  sales_enablement_tasks

/-! ## Executor (source lines 1548-1609)

`generate_block` renders the task's prompt template and calls the
external Anthropic client.  The external call is modelled as an oracle
`gen : Task → GenOutcome`; the semaphore only schedules (see the
scheduler model below) and does not change which result a task gets. -/

/-- Outcome of the external generate call: the response's text and
`usage.output_tokens`, or any raised exception's message. -/
inductive GenOutcome where
  | ok (content : String) (output_tokens : Nat)
  | fail (msg : String)
deriving DecidableEq, Repr

/-- A result dict as returned by `generate_block`.  The source's error
dicts carry only `key`, `content` and `error: True`; its success dict
carries `key`, `content`, `block_type`, `params`, `tokens_used` and no
`error` key.  Fields that may be absent are `Option`s; `error` models
the truthiness of `r.get("error")` (absent = `false`). -/
structure BlockResult where
  key : String
  content : String
  error : Bool
  block_type : Option String
  params : Option (List (String × PValue))
  tokens_used : Option Nat
deriving DecidableEq, Repr

/-- The single-quote character, `chr 39`. -/
def singleQuote : String := String.singleton (Char.ofNat 39)

/-- Python's `str(KeyError(f))`, which renders as the key in single
quotes — this is what `f"ERROR: Missing param {e}"` interpolates. -/
def pyKeyRepr (f : String) : String := singleQuote ++ f ++ singleQuote

/-- The `PROMPTS` table (source lines 331-1046), modelled from the
source: each of its 18 templates is abstracted to the ordered list of
its single-brace `str.format` fields (first-occurrence order; `{{…}}`
is escaped literal text and binds no field).  `generate_block` uses a
template only through `PROMPTS.get` and `format(**params)`, which this
captures: `format` raises `KeyError` at the first referenced field
missing from `params` and otherwise succeeds. -/
def PROMPT_FIELDS : List (String × List String) := [
  ("executive_summary", ["risk_tolerance", "variation"]),
  ("industry_narrative", ["industry", "variation", "industry_factors"]),
  ("solution_description", ["solution_name", "roi_timeline", "primary_impacts", "sources", "impact_matrix"]),
  ("category_anchor", ["category", "variation", "benchmark_range", "cost_components"]),
  ("impact_primary", ["solution", "category", "conservative_range", "moderate_range", "aggressive_range", "sources"]),
  ("impact_secondary", ["solution", "category", "conservative_range", "moderate_range", "sources"]),
  ("impact_tertiary", ["solution", "category", "typical_range"]),
  ("synergy", ["solution_a", "solution_b", "interaction_type", "affected_categories"]),
  ("methodology", ["risk_tolerance", "discount", "cap"]),
  ("implementation_roadmap", ["complexity"]),
  ("why_now", []),
  ("diy_vs_partner", []),
  ("readiness_assessment", []),
  ("report_limitations", []),
  ("risk_factors", []),
  ("next_steps", []),
  ("partner_acknowledgment", []),
  ("sales_enablement", ["solution_combo", "industry", "company_size"])
]

/-- `generate_block` (source lines 1548-1586), as the per-task result
function.  Branches in source order: unknown block type; `KeyError`
from `format` (first missing field); then the external call, whose
exception is caught and tagged.  Every branch returns a result for the
task — no failure escapes. -/
def generate_block (gen : Task → GenOutcome) (task : Task) : BlockResult :=
  match PROMPT_FIELDS.lookup task.block_type with
  | none =>
    { key := task.output_key,
      content := "ERROR: Unknown block type " ++ task.block_type,
      error := true, block_type := none, params := none, tokens_used := none }
  | some fields =>
    match fields.find? (fun f => !(task.params.any (fun p => p.1 == f))) with
    | some f =>
      { key := task.output_key,
        content := "ERROR: Missing param " ++ pyKeyRepr f,
        error := true, block_type := none, params := none, tokens_used := none }
    | none =>
      match gen task with
      | .ok content tk =>
        { key := task.output_key, content := content, error := false,
          block_type := some task.block_type, params := some task.params,
          tokens_used := some tk }
      | .fail msg =>
        { key := task.output_key, content := "ERROR: " ++ msg, error := true,
          block_type := none, params := none, tokens_used := none }

/-- The source default of the `max_concurrent` keyword of
`generate_all_blocks` (source line 1589); `main` passes the same value
explicitly (source line 1695). -/
def default_max_concurrent : Nat := 10

/-- `generate_all_blocks` (source lines 1589-1609): one coroutine per
catalog task, all awaited via `asyncio.as_completed`, which yields
exactly one result per coroutine in arrival order.  Arrival order is
scheduler-dependent, so the function is modelled as the submission-order
list of results; an actual run returns some permutation of it, and the
claims about it are stated up to permutation.  The progress print every
10 completions is advisory output only. -/
def generate_all_blocks (gen : Task → GenOutcome) (cfg : Config) : List BlockResult :=
  (build_all_generation_tasks cfg).map (generate_block gen)

/-! ## Aggregator (source lines 1616-1662) -/

/-- The ten bucket fields of the organized document, in the source's
`elif` priority order (source lines 1641-1660). -/
inductive Bucket where
  | executive_summaries
  | industry_narratives
  | solution_descriptions
  | category_anchors
  | impact_explanations
  | synergies
  | methodology
  | roadmaps
  | sales_enablement
  | strategic_blocks
deriving DecidableEq, Repr

/-- The bucket a key is routed to: the source's `startswith` `elif`
chain, with the catch-all `strategic_blocks` as final `else`. -/
def bucket_of (key : String) : Bucket :=
  if startsWithPy key "executive_summary_" then .executive_summaries
  else if startsWithPy key "industry_" then .industry_narratives
  else if startsWithPy key "solution_" then .solution_descriptions
  else if startsWithPy key "category_" then .category_anchors
  else if startsWithPy key "impact_" then .impact_explanations
  else if startsWithPy key "synergy_" then .synergies
  else if startsWithPy key "methodology_" then .methodology
  else if startsWithPy key "roadmap_" then .roadmaps
  else if startsWithPy key "sales_enablement_" then .sales_enablement
  else .strategic_blocks

/-- The numeric run metadata (source lines 1619-1624).  The source also
records `generated_at`, a wall-clock timestamp from `datetime.now()`;
it is an external clock reading outside the pure reductions and carries
no claim, so it is not modelled. -/
structure Metadata where
  total_blocks : Nat
  errors : Nat
  total_tokens : Nat
deriving DecidableEq, Repr

/-- The organized document: metadata plus one dict per bucket, each
modelled as an insertion-ordered association list with Python-dict
assignment semantics (`dictSet` below). -/
structure Organized where
  metadata : Metadata
  buckets : Bucket → List (String × String)

/-- The entries of one named bucket. -/
def bucketEntries (o : Organized) (b : Bucket) : List (String × String) :=
  o.buckets b

/-- Python dict assignment `d[k] = v` on an insertion-ordered
association list: overwrite in place if `k` is present, else append. -/
def dictSet (d : List (String × String)) (k v : String) : List (String × String) :=
  if d.any (fun p => p.1 == k) then
    d.map (fun p => if p.1 == k then (k, v) else p)
  else d ++ [(k, v)]

/-- The body of the aggregation loop (source lines 1637-1660): route
`result["content"]` into the bucket selected by the `startswith` chain
on `result["key"]`. -/
def insert_result (o : Organized) (r : BlockResult) : Organized :=
  { o with buckets := fun b =>
      if b = bucket_of r.key then dictSet (o.buckets b) r.key r.content
      else o.buckets b }

/-- `organize_results` (source lines 1616-1662): metadata computed from
the full result list (`len`, `sum(1 for r … if r.get("error"))`,
`sum(r.get("tokens_used", 0) …)`), then every result routed into its
bucket in list order. -/
def organize_results (results : List BlockResult) : Organized :=
  results.foldl insert_result
    { metadata :=
        { total_blocks := results.length,
          errors := (results.filter (fun r => r.error)).length,
          total_tokens := (results.map (fun r => r.tokens_used.getD 0)).sum },
      buckets := fun _ => [] }

/-- All ten buckets, in document order. -/
def allBuckets : List Bucket :=
  [.executive_summaries, .industry_narratives, .solution_descriptions,
   .category_anchors, .impact_explanations, .synergies, .methodology,
   .roadmaps, .sales_enablement, .strategic_blocks]

/-- Total number of entries across all buckets of the document. -/
def totalBucketEntries (o : Organized) : Nat :=
  (allBuckets.map (fun b => (bucketEntries o b).length)).sum

/-! ## Concurrency model (source lines 1548-1551, 1589-1607)

`generate_all_blocks` creates `asyncio.Semaphore(max_concurrent)` and
every `generate_block` coroutine wraps its whole body — including the
external call — in `async with semaphore`.  The interleaving of the
coroutines is modelled as a transition system: each task is pending,
holding a permit (its `Generate` call may be in flight), or completed.
`acquire` needs a free permit and decrements the counter; leaving the
`async with` block increments it.  A `Generate` call can only overlap
another while both tasks hold permits, so a bound on permit holders
bounds overlapping calls. -/

/-- Phase of one task's coroutine. -/
inductive TaskPhase where
  | pending
  | generating
  | completed
deriving DecidableEq, Repr

/-- Scheduler state: the semaphore's free-permit count and each task's
phase. -/
structure SchedState where
  available : Nat
  phases : List TaskPhase
deriving DecidableEq, Repr

/-- Number of tasks currently holding a permit (their `Generate` calls
are the ones that can be in flight). -/
def inFlight (s : SchedState) : Nat :=
  s.phases.countP (fun p => p == TaskPhase.generating)

/-- One scheduler transition: a pending task acquires a permit when one
is free, or a permit-holding task finishes and releases it. -/
inductive SchedStep : SchedState → SchedState → Prop where
  | acquire (s : SchedState) (i : Nat) (h : i < s.phases.length)
      (hp : s.phases[i] = TaskPhase.pending) (ha : 0 < s.available) :
      SchedStep s ⟨s.available - 1, s.phases.set i TaskPhase.generating⟩
  | release (s : SchedState) (i : Nat) (h : i < s.phases.length)
      (hp : s.phases[i] = TaskPhase.generating) :
      SchedStep s ⟨s.available + 1, s.phases.set i TaskPhase.completed⟩

/-- Reachability along scheduler transitions. -/
inductive SchedReach (s₀ : SchedState) : SchedState → Prop where
  | refl : SchedReach s₀ s₀
  | tail {s s' : SchedState} : SchedReach s₀ s → SchedStep s s' → SchedReach s₀ s'

/-- Initial state of a batch: `Semaphore(n)` fresh and `k` coroutines
submitted, none started. -/
def initSched (n k : Nat) : SchedState :=
  ⟨n, List.replicate k TaskPhase.pending⟩

/-- One transition preserves the semaphore's accounting: permits held
plus permits free is unchanged. -/
theorem sched_step_invariant {n : Nat} {s s' : SchedState}
    (hstep : SchedStep s s') (ih : inFlight s + s.available = n) :
    inFlight s' + s'.available = n := by
  cases hstep with
  | acquire i hi hp ha =>
    have hset := List.countP_set (fun p => p == TaskPhase.generating) s.phases i
      TaskPhase.generating hi
    rw [hp] at hset
    simp only [inFlight] at ih ⊢
    rw [hset]
    have h1 : ((TaskPhase.generating == TaskPhase.generating) = true) := by decide
    have h2 : ¬ ((TaskPhase.pending == TaskPhase.generating) = true) := by decide
    rw [if_pos h1, if_neg h2]
    omega
  | release i hi hp =>
    have hset := List.countP_set (fun p => p == TaskPhase.generating) s.phases i
      TaskPhase.completed hi
    rw [hp] at hset
    simp only [inFlight] at ih ⊢
    rw [hset]
    have h1 : ((TaskPhase.generating == TaskPhase.generating) = true) := by decide
    have h2 : ¬ ((TaskPhase.completed == TaskPhase.generating) = true) := by decide
    rw [if_pos h1, if_neg h2]
    have hmem : TaskPhase.generating ∈ s.phases := by
      rw [← hp]; exact List.getElem_mem hi
    have hpos : 0 < List.countP (fun p => p == TaskPhase.generating) s.phases :=
      List.countP_pos_iff.mpr ⟨TaskPhase.generating, hmem, h1⟩
    omega

/-- Semaphore invariant along any reachable state. -/
theorem sched_invariant {n k : Nat} {s : SchedState}
    (h : SchedReach (initSched n k) s) : inFlight s + s.available = n := by
  induction h with
  | refl => simp [inFlight, initSched, List.countP_eq_length_filter]
  | tail _ hstep ih => exact sched_step_invariant hstep ih

/-! ## Executor lemmas -/

/-- Every result carries its originating task's `output_key`: all four
branches of `generate_block` copy `task["output_key"]`. -/
theorem generate_block_key (gen : Task → GenOutcome) (t : Task) :
    (generate_block gen t).key = t.output_key := by
  unfold generate_block
  split
  · rfl
  · split
    · rfl
    · split <;> rfl

/-- A failure of the external call always yields an error-tagged result
(and never escapes): whichever earlier branch applies, the result is
tagged, and in the call branch the exception handler tags it. -/
theorem generate_block_error_of_fail (gen : Task → GenOutcome) (t : Task)
    (msg : String) (hfail : gen t = GenOutcome.fail msg) :
    (generate_block gen t).error = true := by
  unfold generate_block
  split
  · rfl
  · split
    · rfl
    · split
      · rename_i heq
        rw [hfail] at heq
        cases heq
      · rfl

/-- Isolation: a task's result depends on the oracle only through that
task's own call, so altering other tasks' outcomes cannot change it. -/
theorem generate_block_isolated (gen gen' : Task → GenOutcome) (t : Task)
    (h : gen t = gen' t) : generate_block gen t = generate_block gen' t := by
  unfold generate_block
  rw [h]

/-! ## Aggregator lemmas -/

/-- `insert_result` touches exactly the bucket selected by the
`startswith` chain. -/
theorem bucketEntries_insert (o : Organized) (r : BlockResult) (b : Bucket) :
    bucketEntries (insert_result o r) b =
      if b = bucket_of r.key then dictSet (bucketEntries o b) r.key r.content
      else bucketEntries o b := rfl

/-- `insert_result` never changes the metadata. -/
theorem metadata_insert (o : Organized) (r : BlockResult) :
    (insert_result o r).metadata = o.metadata := rfl

/-- The aggregation loop never changes the metadata. -/
theorem metadata_foldl (rs : List BlockResult) (o : Organized) :
    (rs.foldl insert_result o).metadata = o.metadata := by
  induction rs generalizing o with
  | nil => rfl
  | cons r rs ih => rw [List.foldl_cons, ih, metadata_insert]

/-- Python dict assignment with a key not yet present appends. -/
theorem dictSet_fresh {d : List (String × String)} {k v : String}
    (h : ∀ e ∈ d, e.1 ≠ k) : dictSet d k v = d ++ [(k, v)] := by
  have hany : d.any (fun p => p.1 == k) = false := by
    rw [List.any_eq_false]
    intro e hmem
    simp only [beq_iff_eq]
    exact h e hmem
  unfold dictSet
  rw [hany]
  simp

/-- Characterisation of one bucket after the aggregation loop, when the
incoming results' keys are pairwise distinct and absent from the
accumulator: the bucket receives, in order, exactly the results the
chain routes to it. -/
theorem foldl_bucket (b : Bucket) (rs : List BlockResult) (o : Organized)
    (hfresh : ∀ r ∈ rs, ∀ c : Bucket, ∀ e ∈ bucketEntries o c, e.1 ≠ r.key)
    (hnodup : (rs.map (fun r => r.key)).Nodup) :
    bucketEntries (rs.foldl insert_result o) b =
      bucketEntries o b ++
        (rs.filter (fun r => bucket_of r.key == b)).map (fun r => (r.key, r.content)) := by
  induction rs generalizing o with
  | nil => simp
  | cons r rs ih =>
    rw [List.foldl_cons]
    have hr : ∀ c : Bucket, ∀ e ∈ bucketEntries o c, e.1 ≠ r.key := fun c e he =>
      hfresh r (List.mem_cons_self r rs) c e he
    have hins : ∀ c : Bucket, bucketEntries (insert_result o r) c =
        if c = bucket_of r.key then bucketEntries o c ++ [(r.key, r.content)]
        else bucketEntries o c := by
      intro c
      rw [bucketEntries_insert]
      by_cases hc : c = bucket_of r.key
      · rw [if_pos hc, if_pos hc, dictSet_fresh (hr c)]
      · rw [if_neg hc, if_neg hc]
    rw [List.map_cons] at hnodup
    have hnodup' : (rs.map (fun r => r.key)).Nodup := (List.nodup_cons.mp hnodup).2
    have hkey : r.key ∉ rs.map (fun r => r.key) := (List.nodup_cons.mp hnodup).1
    have hfresh' : ∀ r' ∈ rs, ∀ c : Bucket, ∀ e ∈ bucketEntries (insert_result o r) c,
        e.1 ≠ r'.key := by
      intro r' hr' c e he
      rw [hins c] at he
      by_cases hc : c = bucket_of r.key
      · rw [if_pos hc] at he
        rcases List.mem_append.mp he with hold | hnew
        · exact hfresh r' (List.mem_cons_of_mem r hr') c e hold
        · have : e = (r.key, r.content) := by simpa using hnew
          subst this
          intro hcontra
          exact hkey (by
            simp only [List.mem_map]
            exact ⟨r', hr', hcontra.symm⟩)
      · rw [if_neg hc] at he
        exact hfresh r' (List.mem_cons_of_mem r hr') c e he
    rw [ih (insert_result o r) hfresh' hnodup', hins b, List.filter_cons]
    by_cases hb : bucket_of r.key = b
    · have hbeq : (bucket_of r.key == b) = true := by simp [hb]
      rw [if_pos (hb.symm), hbeq]
      simp [List.append_assoc]
    · have hbeq : (bucket_of r.key == b) = false := by simp [hb]
      rw [if_neg (fun hc => hb (hc.symm)), hbeq]
      simp

/-- The buckets of `organize_results` under distinct keys: each bucket
is exactly the routed sub-list of results. -/
theorem organize_bucket (rs : List BlockResult)
    (hnodup : (rs.map (fun r => r.key)).Nodup) (b : Bucket) :
    bucketEntries (organize_results rs) b =
      (rs.filter (fun r => bucket_of r.key == b)).map (fun r => (r.key, r.content)) := by
  unfold organize_results
  rw [foldl_bucket b rs _ (fun r _ c e he => by cases he) hnodup]
  rfl

/-- Sum of a pointwise addition of two counts. -/
theorem map_sum_add {α : Type} (l : List α) (f g : α → Nat) :
    (l.map (fun a => f a + g a)).sum = (l.map f).sum + (l.map g).sum := by
  induction l with
  | nil => rfl
  | cons a l ih =>
    simp only [List.map_cons, List.sum_cons, ih]
    omega

/-- Each key is routed to exactly one of the ten buckets, so the
indicator over `allBuckets` sums to one. -/
theorem sum_indicator (x : Bucket) :
    (allBuckets.map (fun b => if x == b then 1 else 0)).sum = 1 := by
  cases x <;> rfl

/-- The routed sub-lists partition the results: their lengths sum to the
total result count. -/
theorem sum_routed (rs : List BlockResult) :
    (allBuckets.map (fun b =>
      (rs.filter (fun r => bucket_of r.key == b)).length)).sum = rs.length := by
  induction rs with
  | nil => rfl
  | cons r rs ih =>
    have hsplit : ∀ b : Bucket,
        ((r :: rs).filter (fun r => bucket_of r.key == b)).length
          = (if bucket_of r.key == b then 1 else 0)
            + (rs.filter (fun r => bucket_of r.key == b)).length := by
      intro b
      rw [List.filter_cons]
      by_cases hb : (bucket_of r.key == b) = true
      · rw [if_pos hb, if_pos hb]
        simp [Nat.add_comm]
      · rw [if_neg hb, if_neg hb]
        simp
    rw [List.map_congr_left (fun b _ => hsplit b), map_sum_add, sum_indicator]
    rw [ih]
    simp [Nat.add_comm]

/-- The decidable render check: the task's block type is a `PROMPTS` key
and every format field of its template is among the task's params, i.e.
neither internal error branch of `generate_block` can fire. -/
def renderable (t : Task) : Bool :=
  match PROMPT_FIELDS.lookup t.block_type with
  | some fields => fields.all (fun f => t.params.any (fun p => p.1 == f))
  | none => false

/-- Unpacking `renderable`: the template exists and `format` finds no
missing field. -/
theorem renderable_spec (t : Task) (h : renderable t = true) :
    ∃ fields, PROMPT_FIELDS.lookup t.block_type = some fields ∧
      fields.find? (fun f => !(t.params.any (fun p => p.1 == f))) = none := by
  unfold renderable at h
  split at h
  · rename_i fields heq
    refine ⟨fields, heq, ?_⟩
    rw [List.find?_eq_none]
    intro f hf
    have := List.all_eq_true.mp h f hf
    simp [this]
  · cases h

/-- For a renderable task the only error source is the external call:
an error-tagged result implies the oracle failed on this task. -/
theorem error_only_from_gen (t : Task) (fields : List String)
    (hfields : PROMPT_FIELDS.lookup t.block_type = some fields)
    (hfind : fields.find? (fun f => !(t.params.any (fun p => p.1 == f))) = none)
    (gen : Task → GenOutcome) (herr : (generate_block gen t).error = true) :
    ∃ msg, gen t = GenOutcome.fail msg := by
  unfold generate_block at herr
  split at herr
  · rename_i heq
    rw [hfields] at heq
    cases heq
  · rename_i fields' heq
    rw [hfields] at heq
    injection heq with heq'
    subst heq'
    split at herr
    · rename_i f hf
      rw [hfind] at hf
      cases hf
    · split at herr
      · cases herr
      · rename_i msg hg
        exact ⟨msg, hg⟩

/-- A string starts with any string it extends on the right. -/
theorem startsWithPy_append (pre rest : String) :
    startsWithPy (pre ++ rest) pre = true := by
  have hdata : (pre ++ rest).data = pre.data ++ rest.data := rfl
  unfold startsWithPy
  rw [hdata]
  exact List.isPrefixOf_iff_prefix.mpr (List.prefix_append pre.data rest.data)

/-! ## Concrete instances used to settle the claims -/

/-- An oracle for which every external call fails (e.g. a transport
timeout on every request). -/
def genFailAll : Task → GenOutcome := fun _ => GenOutcome.fail "APITimeoutError"

/-- An oracle for which every external call succeeds with a fixed body
and token count. -/
def genOkAll : Task → GenOutcome := fun _ => GenOutcome.ok "## Generated block" 123

/-- The first task of the default catalog (Conservative executive
summary, variation 1). -/
def TC5 : Task :=
  { block_type := "executive_summary",
    params := [("risk_tolerance", PValue.s "Conservative"), ("variation", PValue.n 1)],
    output_key := "executive_summary_conservative_v1" }

/-- Configuration tables that generate colliding output keys: the same
risk-tolerance row listed twice makes every executive-summary and
methodology key appear twice. -/
def CFG_DUP : Config :=
  { industries := [], solutions := [], categories := [], synergy_pairs := [],
    risk_tolerances := [{ name := "Conservative", discount := 70, cap := 20 },
                        { name := "Conservative", discount := 70, cap := 20 }],
    complexity_levels := [], impact_matrix := [] }

/-- A successful result for an executive-summary key. -/
def R_EXEC : BlockResult :=
  { key := "executive_summary_conservative_v1", content := "## Executive Summary",
    error := false, block_type := some "executive_summary",
    params := some [("risk_tolerance", PValue.s "Conservative"), ("variation", PValue.n 1)],
    tokens_used := some 7 }

/-- A successful result for the `why_now` key. -/
def R_DUP_A : BlockResult :=
  { key := "why_now", content := "first copy", error := false,
    block_type := some "why_now", params := some [], tokens_used := some 10 }

/-- A second result carrying the same key as `R_DUP_A`. -/
def R_DUP_B : BlockResult :=
  { key := "why_now", content := "second copy", error := false,
    block_type := some "why_now", params := some [], tokens_used := some 12 }

/-- The number of cells of an impact matrix whose impact type is not the
sentinel `"MINIMAL"` — the count the spec asks the impact-explanation
family to match. -/
def nonMinimalCellCount (matrix : List (String × List (String × ImpactCell))) : Nat :=
  ((matrix.flatMap (fun sc => sc.2)).filter (fun cc => cc.2.type ≠ "MINIMAL")).length

set_option maxRecDepth 1000000 in
/-- The 144 output keys of the default catalog are pairwise distinct
(checked by evaluation). -/
theorem default_keys_nodup :
    ((build_all_generation_tasks DEFAULT_CONFIG).map Task.output_key).Nodup := by
  decide

set_option maxRecDepth 1000000 in
/-- Every task of the default catalog passes the render check: its block
type is a `PROMPTS` key and all template fields are among its params
(checked by evaluation). -/
theorem all_renderable :
    (build_all_generation_tasks DEFAULT_CONFIG).all renderable = true := by
  decide

/-! ## The claims -/

/-- C1: for every catalog of K tasks the Executor produces exactly K
results, in whatever arrival order `as_completed` yields; every result
carries its task's key; a failure of the `Generate` capability is caught
and converted into an error-tagged result; and a task's result depends
only on that task's own call, so no failure terminates the batch or
leaks into another task's result. -/
theorem C1_executor_totality (gen : Task → GenOutcome) (cfg : Config)
    (out : List BlockResult) (hperm : out.Perm (generate_all_blocks gen cfg)) :
    out.length = (build_all_generation_tasks cfg).length ∧
    (∀ t ∈ build_all_generation_tasks cfg,
      (generate_block gen t).key = t.output_key ∧
      ∀ msg, gen t = GenOutcome.fail msg → (generate_block gen t).error = true) ∧
    (∀ gen' : Task → GenOutcome, ∀ t : Task, gen t = gen' t →
      generate_block gen t = generate_block gen' t) := by
  refine ⟨?_, ?_, ?_⟩
  · rw [hperm.length_eq]
    simp [generate_all_blocks]
  · intro t ht
    exact ⟨generate_block_key gen t,
           fun msg h => generate_block_error_of_fail gen t msg h⟩
  · intro gen' t h
    exact generate_block_isolated gen gen' t h

/-- Witness for C1: the default catalog under an always-failing oracle,
with the identity arrival order. -/
theorem C1_executor_totality_witness :
    (generate_all_blocks genFailAll DEFAULT_CONFIG).length
        = (build_all_generation_tasks DEFAULT_CONFIG).length ∧
    (∀ t ∈ build_all_generation_tasks DEFAULT_CONFIG,
      (generate_block genFailAll t).key = t.output_key ∧
      ∀ msg, genFailAll t = GenOutcome.fail msg →
        (generate_block genFailAll t).error = true) ∧
    (∀ gen' : Task → GenOutcome, ∀ t : Task, genFailAll t = gen' t →
      generate_block genFailAll t = generate_block gen' t) :=
  C1_executor_totality genFailAll DEFAULT_CONFIG
    (generate_all_blocks genFailAll DEFAULT_CONFIG) (List.Perm.refl _)

/-- C2: no two tasks of the catalog built over the source's static
configuration tables share an `output_key`. -/
theorem C2_output_keys_unique :
    ((build_all_generation_tasks DEFAULT_CONFIG).map Task.output_key).Nodup :=
  default_keys_nodup

/-- C3 (amended): for every result list whose keys are pairwise
distinct — which the Executor guarantees for catalog runs, by C2 — the
`startswith` chain assigns each result's key to exactly one bucket and
the union of the buckets has exactly one entry per result, so its
cardinality is the result count.  (Unrestricted result lists violate
the cardinality part: buckets are dicts, so two results sharing a key
collapse to one entry — see the counterexample.) -/
theorem C3_partition (rs : List BlockResult)
    (hnodup : (rs.map (fun r => r.key)).Nodup) :
    totalBucketEntries (organize_results rs) = rs.length ∧
    ∀ r ∈ rs,
      r.key ∈ (bucketEntries (organize_results rs) (bucket_of r.key)).map Prod.fst ∧
      ∀ b : Bucket, b ≠ bucket_of r.key →
        r.key ∉ (bucketEntries (organize_results rs) b).map Prod.fst := by
  constructor
  · unfold totalBucketEntries
    rw [List.map_congr_left
      (fun b _ => by rw [organize_bucket rs hnodup b, List.length_map])]
    exact sum_routed rs
  · intro r hr
    constructor
    · rw [organize_bucket rs hnodup]
      simp only [List.map_map]
      refine List.mem_map.mpr ⟨r, ?_, rfl⟩
      refine List.mem_filter.mpr ⟨hr, ?_⟩
      simp
    · intro b hb
      rw [organize_bucket rs hnodup b]
      intro hmem
      simp only [List.map_map, List.mem_map, Function.comp] at hmem
      rcases hmem with ⟨r', hr', hkey⟩
      rcases List.mem_filter.mp hr' with ⟨_, hbeq⟩
      have hb' : bucket_of r'.key = b := by simpa using hbeq
      apply hb
      rw [← hb', hkey]

/-- Witness for C3: two results with distinct keys routed to two
different buckets. -/
theorem C3_partition_witness :
    totalBucketEntries (organize_results [R_EXEC, R_DUP_A])
        = ([R_EXEC, R_DUP_A] : List BlockResult).length ∧
    ∀ r ∈ ([R_EXEC, R_DUP_A] : List BlockResult),
      r.key ∈ (bucketEntries (organize_results [R_EXEC, R_DUP_A])
        (bucket_of r.key)).map Prod.fst ∧
      ∀ b : Bucket, b ≠ bucket_of r.key →
        r.key ∉ (bucketEntries (organize_results [R_EXEC, R_DUP_A]) b).map Prod.fst :=
  C3_partition [R_EXEC, R_DUP_A] (by decide)

/-- Counterexample to C3 as stated ("for every list of results"): two
results carrying the same key collapse into one dict entry, so the
union of the buckets has cardinality 1 while the result count is 2. -/
theorem C3_counterexample :
    totalBucketEntries (organize_results [R_DUP_A, R_DUP_B]) = 1 ∧
    ([R_DUP_A, R_DUP_B] : List BlockResult).length = 2 := by
  decide

/-- C4 (amended): the task-catalog construction performs no
duplicate-key check and cannot fail: over tables that do generate
colliding keys it still returns every generated task and the Executor
still runs them all.  No collision arises for the shipped tables only
because their 144 generated keys happen to be pairwise distinct. -/
theorem C4_no_duplicate_check (cfg : Config) (gen : Task → GenOutcome) :
    (generate_all_blocks gen cfg).length = (build_all_generation_tasks cfg).length ∧
    ((build_all_generation_tasks DEFAULT_CONFIG).map Task.output_key).Nodup := by
  refine ⟨?_, default_keys_nodup⟩
  simp [generate_all_blocks]

/-- Counterexample to C4 as stated: over `CFG_DUP` the generated keys
collide, yet construction completes normally with all 27 tasks (no
fail-fast), and execution then produces a result for every one of
them. -/
theorem C4_counterexample :
    ¬ ((build_all_generation_tasks CFG_DUP).map Task.output_key).Nodup ∧
    (build_all_generation_tasks CFG_DUP).length = 27 ∧
    (generate_all_blocks genFailAll CFG_DUP).length = 27 := by
  decide

/-- C5 (amended): every result carries the originating task's
`output_key` and a content string; an error-tagged result's content is
prefixed `ERROR:` and it carries no `block_type`, `params` or
`tokens_used` fields (the source's error dicts omit them); a successful
result echoes the task's `block_type` and `params` and carries the
call's token count. -/
theorem C5_result_shape (gen : Task → GenOutcome) (t : Task) :
    (generate_block gen t).key = t.output_key ∧
    ((generate_block gen t).error = true →
      startsWithPy (generate_block gen t).content "ERROR:" = true ∧
      (generate_block gen t).block_type = none ∧
      (generate_block gen t).params = none ∧
      (generate_block gen t).tokens_used = none) ∧
    ((generate_block gen t).error = false →
      (generate_block gen t).block_type = some t.block_type ∧
      (generate_block gen t).params = some t.params ∧
      ∃ tk, (generate_block gen t).tokens_used = some tk ∧
        gen t = GenOutcome.ok (generate_block gen t).content tk) := by
  unfold generate_block
  split
  · refine ⟨rfl, fun _ => ⟨?_, rfl, rfl, rfl⟩, fun h => by cases h⟩
    rw [show ("ERROR: Unknown block type " : String)
          = "ERROR:" ++ " Unknown block type " from rfl,
        String.append_assoc]
    exact startsWithPy_append _ _
  · split
    · refine ⟨rfl, fun _ => ⟨?_, rfl, rfl, rfl⟩, fun h => by cases h⟩
      rw [show ("ERROR: Missing param " : String)
            = "ERROR:" ++ " Missing param " from rfl,
          String.append_assoc]
      exact startsWithPy_append _ _
    · split
      · rename_i content tk hg
        refine ⟨rfl, fun h => ?_, fun _ => ⟨rfl, rfl, tk, rfl, hg⟩⟩
        cases h
      · refine ⟨rfl, fun _ => ⟨?_, rfl, rfl, rfl⟩, fun h => by cases h⟩
        rw [show ("ERROR: " : String) = "ERROR:" ++ " " from rfl,
            String.append_assoc]
        exact startsWithPy_append _ _

/-- Witness for C5: the first catalog task under a failing and under a
succeeding oracle. -/
theorem C5_result_shape_witness :
    (generate_block genFailAll TC5).key = TC5.output_key ∧
    startsWithPy (generate_block genFailAll TC5).content "ERROR:" = true ∧
    (generate_block genOkAll TC5).block_type = some TC5.block_type :=
  ⟨(C5_result_shape genFailAll TC5).1,
   ((C5_result_shape genFailAll TC5).2.1 (by decide)).1,
   ((C5_result_shape genOkAll TC5).2.2 (by decide)).1⟩

/-- Counterexample to C5 as stated: a catalog task (the head of the
default catalog) whose external call fails yields an error result that
carries `error: True` but no `block_type`, no `params` and no
`tokens_used` — the claim's "every Result carries … the task's
blockType and params … and a resourceUnits integer" is false for error
results. -/
theorem C5_counterexample :
    (build_all_generation_tasks DEFAULT_CONFIG).head? = some TC5 ∧
    (generate_block genFailAll TC5).error = true ∧
    (generate_block genFailAll TC5).block_type = none ∧
    (generate_block genFailAll TC5).params = none ∧
    (generate_block genFailAll TC5).tokens_used = none := by
  refine ⟨rfl, rfl, rfl, rfl, rfl⟩

/-- C6: for every impact matrix whose cells use the closed severity set,
the construction emits no impact-explanation task for a MINIMAL cell:
the number of emitted impact tasks equals the number of non-MINIMAL
cells, and every emitted task arises from a non-MINIMAL cell with block
type `"impact_" + type.lower()` — one of the three non-minimal block
types. -/
theorem C6_minimal_filter (matrix : List (String × List (String × ImpactCell)))
    (solutions : List Solution)
    (hclosed : ∀ sc ∈ matrix, ∀ cc ∈ sc.2,
      cc.2.type = "PRIMARY" ∨ cc.2.type = "SECONDARY" ∨
      cc.2.type = "TERTIARY" ∨ cc.2.type = "MINIMAL") :
    (impact_explanation_tasks matrix solutions).length = nonMinimalCellCount matrix ∧
    ∀ t ∈ impact_explanation_tasks matrix solutions,
      ∃ sc ∈ matrix, ∃ cc ∈ sc.2, ¬ cc.2.type = "MINIMAL" ∧
        t.block_type = "impact_" ++ lowerStr cc.2.type ∧
        (t.block_type = "impact_primary" ∨ t.block_type = "impact_secondary" ∨
         t.block_type = "impact_tertiary") := by
  constructor
  · unfold impact_explanation_tasks nonMinimalCellCount get_impact_blocks_to_generate
    rw [List.length_map, List.filter_flatMap, List.length_flatMap, List.length_flatMap]
    congr 1
    apply List.map_congr_left
    intro sc _
    simp [Function.comp]
  · intro t ht
    unfold impact_explanation_tasks at ht
    rcases List.mem_map.mp ht with ⟨block, hblock, rfl⟩
    unfold get_impact_blocks_to_generate at hblock
    rcases List.mem_flatMap.mp hblock with ⟨sc, hsc, hmem⟩
    rcases List.mem_map.mp hmem with ⟨cc, hcc, rfl⟩
    rcases List.mem_filter.mp hcc with ⟨hcc2, hne⟩
    have hne' : ¬ cc.2.type = "MINIMAL" := by simpa using hne
    refine ⟨sc, hsc, cc, hcc2, hne', rfl, ?_⟩
    rcases hclosed sc hsc cc hcc2 with h | h | h | h
    · left
      show "impact_" ++ lowerStr cc.2.type = "impact_primary"
      rw [h]
      decide
    · right; left
      show "impact_" ++ lowerStr cc.2.type = "impact_secondary"
      rw [h]
      decide
    · right; right
      show "impact_" ++ lowerStr cc.2.type = "impact_tertiary"
      rw [h]
      decide
    · exact absurd h hne'

/-- Witness for C6: the source's impact matrix has 55 non-MINIMAL cells
and the theorem instantiates to it. -/
theorem C6_minimal_filter_witness :
    nonMinimalCellCount IMPACT_MATRIX = 55 ∧
    ((impact_explanation_tasks IMPACT_MATRIX SOLUTIONS).length
        = nonMinimalCellCount IMPACT_MATRIX ∧
     ∀ t ∈ impact_explanation_tasks IMPACT_MATRIX SOLUTIONS,
       ∃ sc ∈ IMPACT_MATRIX, ∃ cc ∈ sc.2, ¬ cc.2.type = "MINIMAL" ∧
         t.block_type = "impact_" ++ lowerStr cc.2.type ∧
         (t.block_type = "impact_primary" ∨ t.block_type = "impact_secondary" ∨
          t.block_type = "impact_tertiary")) :=
  ⟨by decide, C6_minimal_filter IMPACT_MATRIX SOLUTIONS (by decide)⟩

/-- C7: the catalog construction is a pure function of the configuration
tables — it reads no clock, no randomness and no execution state, and
iterates lists and insertion-ordered dicts — so two invocations over
identical tables return identical ordered task lists. -/
theorem C7_deterministic (cfg₁ cfg₂ : Config) (h : cfg₁ = cfg₂) :
    build_all_generation_tasks cfg₁ = build_all_generation_tasks cfg₂ := by
  rw [h]

/-- Witness for C7: two invocations over the source's tables. -/
theorem C7_deterministic_witness :
    build_all_generation_tasks DEFAULT_CONFIG
      = build_all_generation_tasks DEFAULT_CONFIG :=
  C7_deterministic DEFAULT_CONFIG DEFAULT_CONFIG rfl

/-- C8: the aggregated document's metadata consists of pure reductions
over the result list — `total_blocks` is the count, `errors` counts the
error-flagged results, and `total_tokens` sums `tokens_used` with 0 for
results that carry none. -/
theorem C8_metadata_reductions (rs : List BlockResult) :
    (organize_results rs).metadata.total_blocks = rs.length ∧
    (organize_results rs).metadata.errors = rs.countP (fun r => r.error) ∧
    (organize_results rs).metadata.total_tokens
        = (rs.map (fun r => r.tokens_used.getD 0)).sum := by
  unfold organize_results
  rw [metadata_foldl]
  refine ⟨rfl, ?_, rfl⟩
  rw [List.countP_eq_length_filter]

/-- C9: in every state reachable under the semaphore discipline of
`generate_all_blocks`, at most `n` tasks hold permits — so at most `n`
`Generate` calls overlap — for any configured `n`; and the bound is a
caller-supplied configuration input whose source default is 10. -/
theorem C9_concurrency_bound (n k : Nat) (s : SchedState)
    (h : SchedReach (initSched n k) s) :
    inFlight s ≤ n ∧ default_max_concurrent = 10 := by
  have hinv := sched_invariant h
  exact ⟨by omega, rfl⟩

/-- Witness for C9: a two-permit, two-task system after one acquire
step. -/
theorem C9_concurrency_bound_witness :
    inFlight ⟨1, [TaskPhase.generating, TaskPhase.pending]⟩ ≤ 2 ∧
    default_max_concurrent = 10 :=
  C9_concurrency_bound 2 2 ⟨1, [TaskPhase.generating, TaskPhase.pending]⟩
    (SchedReach.tail SchedReach.refl
      (SchedStep.acquire (initSched 2 2) 0 (by decide) (by decide) (by decide)))

/-- C10: every task of the default catalog passes the render check —
its block type is a key of `PROMPTS` and every single-brace field of its
template is among its params — so the Executor's "Unknown block type"
and "Missing param" branches are unreachable for catalog tasks and an
error result can only come from a failing `Generate` call. -/
theorem C10_catalog_renderable :
    ∀ t ∈ build_all_generation_tasks DEFAULT_CONFIG,
      renderable t = true ∧
      (∃ fields, PROMPT_FIELDS.lookup t.block_type = some fields ∧
        fields.find? (fun f => !(t.params.any (fun p => p.1 == f))) = none) ∧
      ∀ gen : Task → GenOutcome, (generate_block gen t).error = true →
        ∃ msg, gen t = GenOutcome.fail msg := by
  intro t ht
  have hr : renderable t = true := List.all_eq_true.mp all_renderable t ht
  rcases renderable_spec t hr with ⟨fields, hfields, hfind⟩
  exact ⟨hr, ⟨fields, hfields, hfind⟩,
    fun gen herr => error_only_from_gen t fields hfields hfind gen herr⟩

/-- Witness for C10: the head task of the default catalog. -/
theorem C10_catalog_renderable_witness :
    renderable TC5 = true ∧
    (∃ fields, PROMPT_FIELDS.lookup TC5.block_type = some fields ∧
      fields.find? (fun f => !(TC5.params.any (fun p => p.1 == f))) = none) ∧
    ∀ gen : Task → GenOutcome, (generate_block gen TC5).error = true →
      ∃ msg, gen TC5 = GenOutcome.fail msg :=
  C10_catalog_renderable TC5 (by decide)

end PromptSuite
